import Mathlib

/-!
Verification of the diagnostic aggregation pipeline of cargo-dokita.

The definitions below are a shallow embedding of the Rust sources:
  * `src/diagnostics.rs`   — `Severity`, `Finding`
  * `src/config.rs`        — `Config`, `Config.is_check_enabled`
  * `src/manifest.rs`      — `CargoManifest`, `check_missing_metadata`,
                             `check_dependency_versions`, `check_rust_edition`
  * `src/code_checks.rs`   — `is_library_file`, `check_code_patterns`,
                             `check_project_structure`, `check_missing_denied_lints`
  * `src/dependency_analysis.rs` — `check_outdated_dependencies`, `check_vulnerability`
  * `src/lib.rs`           — `analyze_project_for_test` and the exit-status decision
                             of `analyze_project`

File systems, HTTP fetches, the external `cargo audit` subprocess and the
`serde_json` parser are external collaborators of the program; they enter the
embedding as explicit function parameters (read results, fetch results,
process output, parse results).  Rust `HashMap`s are embedded as association
lists; machine integers do not overflow in any of the embedded code paths, so
`Nat` is used directly.
-/

namespace CargoDokita

/-! ## Diagnostics (src/diagnostics.rs) -/

/-- Embeds `Severity` from src/diagnostics.rs. -/
inductive Severity where
  | Error
  | Warning
  | Note
deriving DecidableEq, Repr

/-- Embeds `Finding` from src/diagnostics.rs. -/
structure Finding where
  code : String
  message : String
  severity : Severity
  file_path : Option String
  line_number : Option Nat
deriving DecidableEq, Repr

/-- Embeds `Finding::new` (src/diagnostics.rs lines 63-71): `line_number` starts as `None`. -/
def Finding.new (code : String) (message : String) (severity : Severity)
    (file_path : Option String) : Finding :=
  { code := code, message := message, severity := severity,
    file_path := file_path, line_number := none }

/-- Embeds `Finding::with_line` (src/diagnostics.rs lines 72-75). -/
def Finding.with_line (f : Finding) (line : Nat) : Finding :=
  { f with line_number := some line }

/-! ## Configuration (src/config.rs) -/

/-- Embeds `ChecksConfig` from src/config.rs; the `enabled` HashMap is embedded as an
association list (keys unique in any well-formed configuration). -/
structure ChecksConfig where
  enabled : List (String × Bool)
deriving DecidableEq, Repr

/-- Embeds `Config` from src/config.rs (the `general` section holds no data). -/
structure Config where
  checks : ChecksConfig
deriving DecidableEq, Repr

/-- Embeds `Config::default()`: empty check map. -/
def Config.default : Config := { checks := { enabled := [] } }

/-- Embeds `Config::is_check_enabled` (src/config.rs lines 88-90):
`self.checks.enabled.get(check_code).copied().unwrap_or(true)`. -/
def Config.is_check_enabled (c : Config) (check_code : String) : Bool :=
  match c.checks.enabled.lookup check_code with
  | some b => b
  | none => true

/-! ## Manifest model (src/manifest.rs) -/

/-- The shapes of a `toml::Value` that the checks distinguish: a string, a
boolean, or anything else (`as_str`/`as_bool` return `None` on the rest). -/
inductive TomlValue where
  | str (s : String)
  | boolean (b : Bool)
  | other
deriving DecidableEq, Repr

/-- Embeds `toml::Value::as_str`. -/
def TomlValue.as_str : TomlValue → Option String
  | .str s => some s
  | _ => none

/-- Embeds `toml::Value::as_bool`. -/
def TomlValue.as_bool : TomlValue → Option Bool
  | .boolean b => some b
  | _ => none

/-- Embeds `Package` from src/manifest.rs. -/
structure Package where
  name : String
  version : String
  edition : Option String
  description : Option String
  license : Option String
  readme : Option TomlValue
  repository : Option String
deriving DecidableEq, Repr

/-- Embeds `DetailedDependency` from src/manifest.rs. -/
structure DetailedDependency where
  version : Option String
  path : Option String
  features : Option (List String)
deriving DecidableEq, Repr

/-- Embeds `Dependency` from src/manifest.rs: plain version string or detailed spec. -/
inductive Dependency where
  | Version (s : String)
  | Detailed (d : DetailedDependency)
deriving DecidableEq, Repr

/-- Embeds `CargoManifest` from src/manifest.rs; the three dependency `HashMap`s are
embedded as association lists. -/
structure CargoManifest where
  package : Option Package
  dependencies : Option (List (String × Dependency))
  dev_dependencies : Option (List (String × Dependency))
  build_dependencies : Option (List (String × Dependency))
deriving DecidableEq, Repr

/-! ## Metadata checks (src/manifest.rs lines 74-209) -/

/-- Embeds `check_missing_metadata` (src/manifest.rs lines 74-139).  Each `push` inside
an `if` becomes a conditional singleton appended in program order. -/
def check_missing_metadata (manifest : CargoManifest) (config : Config) : List Finding :=
  match manifest.package with
  | some package =>
    (if config.is_check_enabled "MD001"
        && (package.description == none || package.description == some "") then
      [Finding.new "MD001"
        "Missing \x27description\x27 in [package] section of Cargo.toml."
        Severity.Warning (some "Cargo.toml")]
    else []) ++
    (if config.is_check_enabled "MD002"
        && (package.license == none || package.license == some "") then
      [Finding.new "MD002"
        "Missing \x27license\x27 (or \x27license-file\x27) in [package] section of Cargo.toml."
        Severity.Warning (some "Cargo.toml")]
    else []) ++
    (if config.is_check_enabled "MD003"
        && (package.repository == none || package.repository == some "") then
      [Finding.new "MD003"
        "Missing \x27repository\x27 in [package] section of Cargo.toml."
        Severity.Note (some "Cargo.toml")]
    else []) ++
    (if config.is_check_enabled "MD004" then
      match package.readme with
      | none =>
        [Finding.new "MD004"
          "Missing \x27readme\x27 field in [package] section of Cargo.toml. Consider adding `readme = \"README.md\"` or `readme = false`."
          Severity.Note (some "Cargo.toml")]
      | some readme_value =>
        if readme_value.as_str.isSome || readme_value.as_bool == some false then
          []
        else
          [Finding.new "MD004"
            "The \x27readme\x27 field in Cargo.toml has an unexpected value. Expected a file path string (e.g., \"README.md\") or `false`."
            Severity.Warning (some "Cargo.toml")]
    else [])
  | none =>
    [Finding.new "MD005" "Missing section [package]" Severity.Error (some "Cargo.toml")]

/-- The version string a dependency resolves to in `check_dependency_versions`
(src/manifest.rs lines 146-149). -/
def depVersionStr : Dependency → Option String
  | .Version s => some s
  | .Detailed d => d.version

/-- The DP001 finding pushed for a wildcard dependency
(src/manifest.rs lines 151-161). -/
def dp001Finding (dep_type : String) (name : String) : Finding :=
  Finding.new "DP001"
    ("Wildcard version \"*\" used for " ++ dep_type ++ " dependency \x27" ++ name
      ++ "\x27. Specify a version range.")
    Severity.Warning (some "Cargo.toml")

/-- The `check_deps` closure of `check_dependency_versions`
(src/manifest.rs lines 143-165). -/
def check_deps (deps : Option (List (String × Dependency))) (dep_type : String) :
    List Finding :=
  match deps with
  | none => []
  | some dependencies =>
    dependencies.foldr
      (fun nd acc =>
        (if depVersionStr nd.2 == some "*" then [dp001Finding dep_type nd.1] else []) ++ acc)
      []

/-- Embeds `check_dependency_versions` (src/manifest.rs lines 141-175). -/
def check_dependency_versions (manifest : CargoManifest) (config : Config) :
    List Finding :=
  if config.is_check_enabled "DP001" then
    check_deps manifest.dependencies "runtime"
      ++ check_deps manifest.dev_dependencies "dev"
      ++ check_deps manifest.build_dependencies "build"
  else []

/-- The `LATEST_STABLE_EDITION` constant (src/manifest.rs line 179). -/
def LATEST_STABLE_EDITION : String := "2024"

/-- Embeds `check_rust_edition` (src/manifest.rs lines 177-209). -/
def check_rust_edition (manifest : CargoManifest) : List Finding :=
  match manifest.package with
  | some package =>
    match package.edition with
    | some edition =>
      if edition ≠ LATEST_STABLE_EDITION then
        [Finding.new "ED001"
          ("Project uses Rust edition \x27" ++ edition ++ "\x27, consider updating to \x27"
            ++ LATEST_STABLE_EDITION ++ "\x27.")
          Severity.Note (some "Cargo.toml")]
      else []
    | none =>
      [Finding.new "ED002"
        ("Project does not specify a Rust edition (implicitly 2015), consider specifying and updating to \x27"
          ++ LATEST_STABLE_EDITION ++ "\x27.")
        Severity.Note (some "Cargo.toml")]
  | none => []

/-! ## Paths and generic list/string helpers -/

/-- A file-system path, embedded as its list of components
(`std::path::Path::components`).  The project root's own components come
first; absolute-path rendering is elided. -/
abbrev Path := List String

/-- Rendering of a path for `to_string_lossy` (separator only; the leading
root of an absolute path is elided, which no check inspects). -/
def pathToString (p : Path) : String := String.intercalate "/" p

/-- Embeds `Path::ends_with(name)` for a single-component `name`: the final
component equals `name`. -/
def pathEndsWith (p : Path) (name : String) : Bool := p.getLast? == some name

/-- Sequential `for`-loop accumulation of per-element finding lists
(`Vec::push` inside a loop, or rayon's order-preserving `flat_map`). -/
def concatMap (f : α → List β) : List α → List β
  | [] => []
  | a :: as => f a ++ concatMap f as

/-- Embeds `iter().enumerate()` starting at index `i`. -/
def enumerateFrom (i : Nat) : List α → List (Nat × α)
  | [] => []
  | a :: as => (i, a) :: enumerateFrom (i + 1) as

/-- Finish one line that was terminated by `\n`: the accumulator holds the
line reversed; a trailing `\r` (i.e. a `\r\n` ending) is stripped. -/
def finishLine (acc : List Char) : List Char :=
  match acc with
  | '\r' :: rest => rest.reverse
  | _ => acc.reverse

/-- Embeds `str::lines` worker: split at `\n`, strip `\r` only from `\r\n` endings,
no final empty line for input ending in `\n`. -/
def rustLinesAux (acc : List Char) : List Char → List (List Char)
  | [] => if acc.isEmpty then [] else [acc.reverse]
  | c :: cs =>
    if c = '\n' then finishLine acc :: rustLinesAux [] cs
    else rustLinesAux (c :: acc) cs

/-- The lines of a file in `str::lines` order. -/
def rustLines (s : String) : List String :=
  (rustLinesAux [] s.data).map String.mk

/-- Remove a literal prefix from a character list, or fail. -/
def stripPrefixChars : List Char → List Char → Option (List Char)
  | [], s => some s
  | _ :: _, [] => none
  | p :: ps, c :: cs => if p = c then stripPrefixChars ps cs else none

/-- Does any suffix of the list satisfy `p`?  (Unanchored regex search.) -/
def anySuffix (p : List Char → Bool) : List Char → Bool
  | [] => p []
  | c :: cs => p (c :: cs) || anySuffix p cs

/-- Leftmost suffix at which `p` produces a value (leftmost regex match). -/
def firstSome (p : List Char → Option α) : List Char → Option α
  | [] => p []
  | c :: cs =>
    match p (c :: cs) with
    | some r => some r
    | none => firstSome p cs

/-- The characters matched by the regex class `\s` on the ASCII range. -/
def isRegexSpace (c : Char) : Bool :=
  c = ' ' || c = '\t' || c = '\n' || c = '\x0b' || c = '\x0c' || c = '\r'

/-! ## Pattern scanner (src/code_checks.rs) -/

/-- Embeds `UNWRAP_REGEX` (`\.unwrap\(\)`, src/code_checks.rs line 51). -/
def unwrapMatch (line : String) : Bool :=
  anySuffix (fun cs => ".unwrap()".data.isPrefixOf cs) line.data

/-- One anchored match of `EXPECT_REGEX` (`\.expect\s*\(`). -/
def expectMatchAt (cs : List Char) : Bool :=
  match stripPrefixChars ".expect".data cs with
  | none => false
  | some rest => (rest.dropWhile isRegexSpace).head? == some '('

/-- Embeds `EXPECT_REGEX` (src/code_checks.rs line 52). -/
def expectMatch (line : String) : Bool := anySuffix expectMatchAt line.data

/-- One anchored match of `PRINTLN_DBG_REGEX` (`(println!|dbg!)\s*\(`). -/
def printlnDbgMatchAt (cs : List Char) : Bool :=
  match stripPrefixChars "println!".data cs with
  | some rest => (rest.dropWhile isRegexSpace).head? == some '('
  | none =>
    match stripPrefixChars "dbg!".data cs with
    | some rest => (rest.dropWhile isRegexSpace).head? == some '('
    | none => false

/-- Embeds `PRINTLN_DBG_REGEX` (src/code_checks.rs line 53). -/
def printlnDbgMatch (line : String) : Bool := anySuffix printlnDbgMatchAt line.data

/-- One anchored match of `TODO_COMMENT_REGEX` (`//\s*(TODO|FIXME|XXX)`),
returning the text of capture group 1. -/
def todoCaptureAt (cs : List Char) : Option String :=
  match stripPrefixChars "//".data cs with
  | none => none
  | some rest =>
    let rest := rest.dropWhile isRegexSpace
    if "TODO".data.isPrefixOf rest then some "TODO"
    else if "FIXME".data.isPrefixOf rest then some "FIXME"
    else if "XXX".data.isPrefixOf rest then some "XXX"
    else none

/-- Embeds `TODO_COMMENT_REGEX` (src/code_checks.rs line 54): capture group of the
leftmost match, if any. -/
def firstTodoCapture (line : String) : Option String := firstSome todoCaptureAt line.data

/-- Embeds `is_library_file` (src/code_checks.rs lines 81-89). -/
def is_library_file (file_path : Path) (project_root : Path) : Bool :=
  let src_lib_path := project_root ++ ["src", "lib.rs"]
  (project_root ++ ["src"]).isPrefixOf file_path
    && file_path != src_lib_path
    && !(pathEndsWith file_path "main.rs")
    && file_path.all (fun c => c != "bin")
    && file_path != project_root ++ ["build.rs"]

/-- The findings the per-line rule set pushes for one source line
(src/code_checks.rs lines 125-171), in program order.  `line_number_for_finding`
is already 1-indexed. -/
def line_findings (file_path : Path) (is_lib_context : Bool)
    (line_number_for_finding : Nat) (line_content : String) : List Finding :=
  (if is_lib_context && unwrapMatch line_content && !(pathEndsWith file_path "build.rs") then
    [(Finding.new "CODE001"
      "\x27.unwrap()\x27 used in library context. Consider using \x27?\x27 or pattern matching."
      Severity.Warning (some (pathToString file_path))).with_line line_number_for_finding]
  else []) ++
  (if is_lib_context && expectMatch line_content && !(pathEndsWith file_path "build.rs") then
    [(Finding.new "CODE002"
      "\x27.expect()\x27 used in library context. While better than unwrap, prefer \x27?\x27 or specific error handling."
      Severity.Note (some (pathToString file_path))).with_line line_number_for_finding]
  else []) ++
  (if is_lib_context && printlnDbgMatch line_content && !(pathEndsWith file_path "build.rs") then
    [(Finding.new "CODE003"
      "Diagnostic macro (println! or dbg!) found in library context. Remove before release."
      Severity.Note (some (pathToString file_path))).with_line line_number_for_finding]
  else []) ++
  (match firstTodoCapture line_content with
   | some comment_type =>
     [(Finding.new "CODE004"
       ("Found \x27" ++ comment_type ++ "\x27 comment. Address or create an issue for it.")
       Severity.Note (some (pathToString file_path))).with_line line_number_for_finding]
   | none => [])

/-- The per-line loop over a successfully read file
(src/code_checks.rs lines 101, 125-171): lines enumerated 1-indexed. -/
def scan_content (file_path : Path) (project_root : Path) (content : String) :
    List Finding :=
  let is_lib_context := is_library_file file_path project_root
  concatMap (fun p => line_findings file_path is_lib_context p.1 p.2)
    (enumerateFrom 1 (rustLines content))

/-- The per-file closure of `check_code_patterns`
(src/code_checks.rs lines 97-173): a failed read yields one IO001 finding,
a successful read is scanned line by line.  `read` models `fs::read_to_string`. -/
def process_file (file_path : Path) (project_root : Path)
    (read : Path → Except String String) : List Finding :=
  match read file_path with
  | .error e =>
    [Finding.new "IO001"
      ("Failed to read file \"" ++ pathToString file_path ++ "\": " ++ e)
      Severity.Warning (some (pathToString file_path))]
  | .ok content => scan_content file_path project_root content

/-- Embeds `check_code_patterns` (src/code_checks.rs lines 91-177); rayon's indexed
`par_iter().flat_map().collect()` preserves per-file order. -/
def check_code_patterns (rust_files : List Path) (project_root : Path)
    (read : Path → Except String String) : List Finding :=
  concatMap (fun fp => process_file fp project_root read) rust_files

/-! ## Project structure checks (src/code_checks.rs lines 180-278) -/

/-- ASCII `to_uppercase` as applied to the license file names. -/
def strToUpper (s : String) : String := s.map Char.toUpper

/-- ASCII `to_lowercase` as applied to the license file names. -/
def strToLower (s : String) : String := s.map Char.toLower

/-- Embeds `check_project_structure` (src/code_checks.rs lines 180-278).  `isFile`,
`isDir` and `pathExists` model the `is_file`, `is_dir` and `exists` queries
on the file system. -/
def check_project_structure (project_root : Path) (manifest_data : Option CargoManifest)
    (isFile : Path → Bool) (isDir : Path → Bool) (pathExists : Path → Bool) :
    List Finding :=
  let has_lib_rs := isFile (project_root ++ ["src", "lib.rs"])
  let has_main_rs := isFile (project_root ++ ["src", "main.rs"])
  let has_bin_dir := isDir (project_root ++ ["src", "bin"])
  let is_likely_library :=
    match manifest_data with
    | none => false
    | some m =>
      match m.package with
      | none => false
      | some p =>
        let default_lib_name := p.name.replace "-" "_"
        pathExists (project_root ++ ["src", default_lib_name ++ ".rs"]) || has_lib_rs
  match manifest_data.bind (fun m => m.package) with
  | none => []
  | some _pkg =>
    (if !is_likely_library && !has_main_rs && !has_bin_dir then
      [Finding.new "STRUCT001"
        "Project has neither src/lib.rs, src/main.rs, nor src/bin/ directory. Is it a virtual workspace or missing source files?"
        Severity.Warning (some "Cargo.toml")]
    else []) ++
    (let readme_path_md := project_root ++ ["README.md"]
     let readme_path_rst := project_root ++ ["README.rst"]
     if !isFile readme_path_md && !isFile readme_path_rst then
       let readme_specified_and_false_or_exists :=
         match (manifest_data.bind (fun m => m.package)).bind (fun p => p.readme) with
         | none => false
         | some r_val =>
           match r_val.as_bool with
           | some b => !b
           | none =>
             match r_val.as_str with
             | some s => isFile (project_root ++ [s])
             | none => false
       if !readme_specified_and_false_or_exists then
         [Finding.new "STRUCT002"
           "Missing README.md file in project root. Consider adding one."
           Severity.Note (some (pathToString readme_path_md))]
       else []
     else []) ++
    (let license_files := ["LICENSE", "LICENSE.txt", "LICENSE-MIT", "LICENSE-APACHE",
                           "COPYING", "UNLICENSE"]
     let has_license_file := license_files.any (fun name =>
       isFile (project_root ++ [name]) || isFile (project_root ++ [strToUpper name])
         || isFile (project_root ++ [strToLower name]))
     if !has_license_file then
       let license_file_specified :=
         match manifest_data.bind (fun m => m.package) with
         | none => false
         | some p => p.license.isSome && p.license != some ""
       let license_is_none :=
         match manifest_data.bind (fun m => m.package) with
         | none => true
         | some p => p.license.isNone
       if !license_file_specified || license_is_none then
         [Finding.new "STRUCT003"
           "Missing LICENSE file in project root. Consider adding one (e.g., LICENSE-MIT or LICENSE-APACHE)."
           Severity.Warning (some "Project Root")]
       else []
     else [])

/-! ## Deny-lint check (src/code_checks.rs lines 282-320) -/

/-- One anchored match of `DENY_LINT_REGEX` (`#!\[deny\(([^)]+)\)\]`):
capture group 1 and the remaining input after the match. -/
def denyMatchAt (cs : List Char) : Option (String × List Char) :=
  match stripPrefixChars "#![deny(".data cs with
  | none => none
  | some rest =>
    let cap := rest.takeWhile (fun c => c ≠ ')')
    let rest2 := rest.dropWhile (fun c => c ≠ ')')
    if cap.isEmpty then none
    else
      match stripPrefixChars ")]".data rest2 with
      | none => none
      | some rest3 => some (String.mk cap, rest3)

/-- Leftmost-first non-overlapping matches of `DENY_LINT_REGEX`
(`captures_iter`); the fuel equals the input length, which every step
strictly decreases by at least one. -/
def denyCapturesAux : Nat → List Char → List String
  | 0, _ => []
  | _ + 1, [] => []
  | fuel + 1, c :: cs =>
    match denyMatchAt (c :: cs) with
    | some (cap, rest) => cap :: denyCapturesAux fuel rest
    | none => denyCapturesAux fuel cs

/-- All capture groups of `DENY_LINT_REGEX` over a file, in order. -/
def denyCaptures (s : String) : List String := denyCapturesAux s.length s.data

/-- The `found_denials` set (src/code_checks.rs lines 299-305): every
comma-separated, trimmed lint name inside some `#![deny(...)]`. -/
def foundDenials (content : String) : List String :=
  concatMap (fun cap => (cap.splitOn ",").map String.trim) (denyCaptures content)

/-- The `recommended_denials` list (src/code_checks.rs line 292). -/
def recommended_denials : List String := ["warnings"]

/-- Embeds `check_missing_denied_lints` (src/code_checks.rs lines 282-320). -/
def check_missing_denied_lints (project_root : Path) (config : Config)
    (pathExists : Path → Bool) (read : Path → Except String String) : List Finding :=
  let lib_rs_path := project_root ++ ["src", "lib.rs"]
  let main_rs_path := project_root ++ ["src", "main.rs"]
  let files_to_check := [lib_rs_path, main_rs_path].filter pathExists
  concatMap
    (fun file_path =>
      if !config.is_check_enabled "LINT001" then []
      else
        match read file_path with
        | .error _ => []
        | .ok content =>
          let found := foundDenials content
          concatMap
            (fun rec_denial =>
              if !found.contains rec_denial then
                [Finding.new "LINT001"
                  ("Consider adding `#![deny(" ++ rec_denial ++ ")]` to the top of \""
                    ++ (file_path.getLast?.getD "") ++ "\" for stricter linting.")
                  Severity.Note (some (pathToString file_path))]
              else [])
            recommended_denials)
    files_to_check

/-! ## Semantic versions (the `semver` crate's `Version::parse` and `Ord`) -/

/-- A parsed semantic version (`semver::Version`): numeric core plus raw
prerelease and build identifier lists. -/
structure Semver where
  major : Nat
  minor : Nat
  patch : Nat
  pre : List String
  build : List String
deriving DecidableEq, Repr

/-- Digits to a natural number. -/
def digitsToNat (ds : List Char) : Nat :=
  ds.foldl (fun acc c => acc * 10 + (c.toNat - '0'.toNat)) 0

/-- Parse one numeric version component: one or more ASCII digits, no
leading zero. -/
def parseNumericComponent (cs : List Char) : Option (Nat × List Char) :=
  let ds := cs.takeWhile Char.isDigit
  let rest := cs.dropWhile Char.isDigit
  if ds.isEmpty then none
  else if ds.head? == some '0' && ds.length != 1 then none
  else some (digitsToNat ds, rest)

/-- Consume one expected character. -/
def expectChar (c : Char) : List Char → Option (List Char)
  | x :: xs => if x = c then some xs else none
  | [] => none

/-- The identifier alphabet `[0-9A-Za-z-]`. -/
def isIdentChar (c : Char) : Bool := c.isAlphanum || c = '-'

/-- Parse dot-separated identifiers.  When `checkNum` is set (prerelease),
fully numeric identifiers must not have leading zeros.  The fuel bounds the
recursion; each step consumes at least one character. -/
def parseIdentsAux (checkNum : Bool) : Nat → List Char → Option (List String × List Char)
  | 0, _ => none
  | fuel + 1, cs =>
    let id := cs.takeWhile isIdentChar
    let rest := cs.dropWhile isIdentChar
    if id.isEmpty then none
    else if checkNum && id.all Char.isDigit && id.head? == some '0' && id.length != 1 then
      none
    else
      match rest with
      | '.' :: rest2 =>
        match parseIdentsAux checkNum fuel rest2 with
        | some (ids, rest3) => some (String.mk id :: ids, rest3)
        | none => none
      | _ => some ([String.mk id], rest)

/-- Embeds `semver::Version::parse`: `MAJOR.MINOR.PATCH[-PRE][+BUILD]`, strict. -/
def semverParse (s : String) : Option Semver := do
  let cs := s.data
  let (major, cs) ← parseNumericComponent cs
  let cs ← expectChar '.' cs
  let (minor, cs) ← parseNumericComponent cs
  let cs ← expectChar '.' cs
  let (patch, cs) ← parseNumericComponent cs
  let (pre, cs) ←
    match cs with
    | '-' :: rest => parseIdentsAux true (rest.length + 1) rest
    | _ => pure ([], cs)
  let (build, cs) ←
    match cs with
    | '+' :: rest => parseIdentsAux false (rest.length + 1) rest
    | _ => pure ([], cs)
  if cs.isEmpty then
    some { major := major, minor := minor, patch := patch, pre := pre, build := build }
  else none

/-- Identifier comparison of the `semver` crate: fully numeric identifiers
compare numerically (length, then lexically — equivalent given no leading
zeros), numeric sorts below alphanumeric, alphanumeric compares lexically. -/
def identCmp (lhs rhs : String) : Ordering :=
  match lhs.data.all Char.isDigit, rhs.data.all Char.isDigit with
  | true, true => (compare lhs.length rhs.length).then (compare lhs rhs)
  | true, false => .lt
  | false, true => .gt
  | false, false => compare lhs rhs

/-- Identifier-by-identifier comparison; a strict prefix compares lower. -/
def identListCmp : List String → List String → Ordering
  | [], [] => .eq
  | [], _ :: _ => .lt
  | _ :: _, [] => .gt
  | l :: ls, r :: rs => (identCmp l r).then (identListCmp ls rs)

/-- Embeds `Ord for Prerelease`: a release (empty prerelease) compares above any
prerelease; otherwise identifier-wise. -/
def prereleaseCmp (lhs rhs : List String) : Ordering :=
  match lhs, rhs with
  | [], [] => .eq
  | [], _ :: _ => .gt
  | _ :: _, [] => .lt
  | l :: ls, r :: rs => identListCmp (l :: ls) (r :: rs)

/-- Embeds `Ord for BuildMetadata`: empty build metadata compares below any;
otherwise identifier-wise. -/
def buildCmp (lhs rhs : List String) : Ordering :=
  match lhs, rhs with
  | [], [] => .eq
  | [], _ :: _ => .lt
  | _ :: _, [] => .gt
  | l :: ls, r :: rs => identListCmp (l :: ls) (r :: rs)

/-- Embeds `Ord for semver::Version`: major, minor, patch, prerelease, build. -/
def semverCmp (a b : Semver) : Ordering :=
  (compare a.major b.major).then ((compare a.minor b.minor).then
    ((compare a.patch b.patch).then
      ((prereleaseCmp a.pre b.pre).then (buildCmp a.build b.build))))

/-- The strict order `cur < latest` used at src/dependency_analysis.rs line 59. -/
def semverLt (a b : Semver) : Bool := semverCmp a b == .lt

/-- Embeds `Display for semver::Version`. -/
def semverToString (v : Semver) : String :=
  toString v.major ++ "." ++ toString v.minor ++ "." ++ toString v.patch
    ++ (if v.pre.isEmpty then "" else "-" ++ String.intercalate "." v.pre)
    ++ (if v.build.isEmpty then "" else "+" ++ String.intercalate "." v.build)

/-! ## Registry freshness checker (src/dependency_analysis.rs lines 13-93) -/

/-- One direct dependency of a workspace member, as `check_outdated_dependencies`
sees it through `cargo_metadata`: its name, whether its source is crates.io
(`dep.source.is_some() && ...is_crates_io()`, line 38), and the concrete
version the resolve graph links it to (lines 44-51; `none` when the
dependency has no entry in the package's resolve node). -/
structure ResolvedDep where
  name : String
  source_is_crates_io : Bool
  resolved_version : Option String
deriving DecidableEq, Repr

/-- The DP002 finding (src/dependency_analysis.rs lines 60-68). -/
def dp002Finding (dep_name : String) (cur latest : Semver) : Finding :=
  Finding.new "DP002"
    ("Direct dependency \x27" ++ dep_name ++ "\x27 is outdated. Current: "
      ++ semverToString cur ++ ", Latest: " ++ semverToString latest)
    Severity.Note (some "Cargo.toml")

/-- The API001 finding (src/dependency_analysis.rs lines 78-83). -/
def api001Finding (dep_name : String) (e : String) : Finding :=
  Finding.new "API001"
    ("Failed to fetch latest version for dependency \x27" ++ dep_name ++ "\x27: " ++ e)
    Severity.Warning none

/-- The per-dependency body of the loop in `check_outdated_dependencies`
(src/dependency_analysis.rs lines 37-89).  `fetch` models
`crates_io_api::get_latest_versions_from_crates_io` (Ok = latest version
string, Err = non-success HTTP status or transport failure). -/
def process_dependency (dep : ResolvedDep) (fetch : String → Except String String) :
    List Finding :=
  if !dep.source_is_crates_io then []
  else
    match dep.resolved_version with
    | none => []
    | some current_version_str =>
      match fetch dep.name with
      | .ok latest_version_str =>
        match semverParse current_version_str, semverParse latest_version_str with
        | some cur, some latest =>
          if semverLt cur latest then [dp002Finding dep.name cur latest] else []
        | _, _ => []
      | .error e => [api001Finding dep.name e]

/-- Embeds `check_outdated_dependencies` (src/dependency_analysis.rs lines 13-93),
with the two nested loops over workspace members and their direct
dependencies flattened into one dependency list. -/
def check_outdated_dependencies (deps : List ResolvedDep)
    (fetch : String → Except String String) : List Finding :=
  concatMap (fun d => process_dependency d fetch) deps

/-! ## Vulnerability scanner adapter (src/dependency_analysis.rs lines 95-216) -/

/-- Embeds `Advisory` of the audit report schema. -/
structure Advisory where
  id : String
  title : String
deriving DecidableEq, Repr

/-- Embeds `AuditPackage` of the audit report schema. -/
structure AuditPackage where
  name : String
deriving DecidableEq, Repr

/-- Embeds `VersionInfo` of the audit report schema. -/
structure VersionInfo where
  patched : List String
deriving DecidableEq, Repr

/-- Embeds `VulnerabilityEntry` of the audit report schema. -/
structure VulnerabilityEntry where
  advisory : Advisory
  package : AuditPackage
  versions : VersionInfo
deriving DecidableEq, Repr

/-- Embeds `VulnerabilitiesList` of the audit report schema. -/
structure VulnerabilitiesList where
  list : List VulnerabilityEntry
deriving DecidableEq, Repr

/-- Embeds `AuditReport` of the audit report schema. -/
structure AuditReport where
  vulnerabilities : VulnerabilitiesList
deriving DecidableEq, Repr

/-- The output of the `cargo audit` subprocess when it could be spawned. -/
structure ProcessOutput where
  statusSuccess : Bool
  stdout : String
  stderr : String
deriving DecidableEq, Repr

/-- The SEC001 finding for one vulnerability entry
(src/dependency_analysis.rs lines 166-177); the Rust `{:?}` escaping inside
the message is elided to plain quotes. -/
def sec001Finding (project_path : Path) (vuln : VulnerabilityEntry) : Finding :=
  Finding.new "SEC001"
    ("Vulnerability found in \x27" ++ vuln.package.name ++ "\x27: " ++ vuln.advisory.title
      ++ " (ID: " ++ vuln.advisory.id ++ "). Patched in: \""
      ++ String.intercalate ", " vuln.versions.patched ++ "\".")
    Severity.Error (some (pathToString (project_path ++ ["Cargo.lock"])))

/-- The `Ok(output)` branch of `check_vulnerability`
(src/dependency_analysis.rs lines 106-202).  `parse` models
`serde_json::from_slice::<AuditReport>` applied to stdout. -/
def check_vulnerability_output (project_path : Path) (output : ProcessOutput)
    (parse : String → Except String AuditReport) : List Finding :=
  if !output.statusSuccess && output.stdout.isEmpty && !output.stderr.isEmpty then
    [Finding.new "AUD001"
      ("cargo-audit execution failed: "
        ++ ((rustLines output.stderr).head?.getD "Unknown error"))
      Severity.Warning (some (pathToString (project_path ++ ["Cargo.lock"])))]
  else
    match parse output.stdout with
    | .ok report =>
      if !report.vulnerabilities.list.isEmpty then
        report.vulnerabilities.list.map (sec001Finding project_path)
      else if !output.statusSuccess && !output.stdout.isEmpty then
        [Finding.new "AUD002"
          ("cargo-audit indicated an issue but no vulnerabilities found in JSON: "
            ++ output.stderr)
          Severity.Warning (some (pathToString (project_path ++ ["Cargo.lock"])))]
      else []
    | .error e =>
      if !output.statusSuccess && !output.stdout.isEmpty then
        [Finding.new "AUD003"
          ("Failed to parse cargo-audit JSON output: " ++ e)
          Severity.Warning (some (pathToString (project_path ++ ["Cargo.lock"])))]
      else []

/-- Embeds `check_vulnerability` (src/dependency_analysis.rs lines 95-216);
`output_result` models `Command::output()` (Err = subprocess could not be
started). -/
def check_vulnerability (project_path : Path)
    (output_result : Except String ProcessOutput)
    (parse : String → Except String AuditReport) : List Finding :=
  match output_result with
  | .ok output => check_vulnerability_output project_path output parse
  | .error e =>
    [Finding.new "AUD004"
      ("Failed to execute \x27cargo audit\x27. Is it installed and in PATH? Error: " ++ e)
      Severity.Warning none]

/-! ## Pipeline orchestrator (src/lib.rs) -/

/-- The external environment of one analysis run: the file system, the
parsed manifest, the dependency graph, the registry and the audit
subprocess, as the checks consume them. -/
structure Project where
  root : Path
  rust_files : List Path
  read : Path → Except String String
  manifest : Except String CargoManifest
  isFile : Path → Bool
  isDir : Path → Bool
  pathExists : Path → Bool
  metadata : Except String (List ResolvedDep)
  fetch : String → Except String String
  audit : Except String ProcessOutput
  auditParse : String → Except String AuditReport

/-- Embeds `analyze_project_for_test` (src/lib.rs lines 312-380) on a project that
resolves and contains a Cargo.toml: the full finding collection in merge
order.  `analyze_project` builds the identical collection
(src/lib.rs lines 118-205) before reporting it. -/
def analyze_project_for_test (p : Project) (config : Config) : List Finding :=
  let code_findings := check_code_patterns p.rust_files p.root p.read
  let structure_findings :=
    match p.manifest with
    | .ok data => check_project_structure p.root (some data) p.isFile p.isDir p.pathExists
    | .error _ => []
  let manifest_findings :=
    match p.manifest with
    | .ok md =>
      check_missing_metadata md config ++ check_dependency_versions md config
        ++ check_rust_edition md
    | .error _ => []
  let dep_findings :=
    (match p.metadata with
     | .ok deps => check_outdated_dependencies deps p.fetch
     | .error _ => []) ++ check_vulnerability p.root p.audit p.auditParse
  code_findings ++ structure_findings ++ manifest_findings ++ dep_findings
    ++ check_missing_denied_lints p.root config p.pathExists p.read

/-- The terminal exit status of `analyze_project` (src/lib.rs lines 263-270):
`process::exit(1)` when any finding is an Error or a Warning, normal exit 0
otherwise. -/
def exit_code (findings : List Finding) : Nat :=
  if findings.any (fun f => f.severity == Severity.Error || f.severity == Severity.Warning)
  then 1 else 0

/-! ## Spec-side definitions used to state amended claims -/

/-- Ascending line-number order between findings: whenever both carry a line,
the first is at most the second. -/
def lineOrderedLE (a b : Finding) : Prop :=
  ∀ la lb, a.line_number = some la → b.line_number = some lb → la ≤ lb

/-- The wildcard findings as the amended spec sentence describes them: one
DP001 Warning per dependency whose resolved version string is exactly `"*"`,
whether or not the dependency also carries a `path`. -/
def wildcard_findings_spec (deps : Option (List (String × Dependency)))
    (dep_type : String) : List Finding :=
  match deps with
  | none => []
  | some ds =>
    (ds.filter (fun nd => depVersionStr nd.2 == some "*")).map
      (fun nd => dp001Finding dep_type nd.1)

/-- The CODE004 findings of a file, computed without consulting the
library/application classification: one finding per line whose content
matches the pending-work-comment pattern. -/
def todo_findings (file_path : Path) (content : String) : List Finding :=
  concatMap
    (fun p =>
      match firstTodoCapture p.2 with
      | some comment_type =>
        [(Finding.new "CODE004"
          ("Found \x27" ++ comment_type ++ "\x27 comment. Address or create an issue for it.")
          Severity.Note (some (pathToString file_path))).with_line p.1]
      | none => [])
    (enumerateFrom 1 (rustLines content))

/-! ## Concrete example inputs used by the theorems -/

/-- A registry-sourced direct dependency resolved at 1.9.0. -/
def exDep : ResolvedDep :=
  { name := "serde", source_is_crates_io := true, resolved_version := some "1.9.0" }

/-- A registry whose latest version is 1.10.0 (numerically newer than 1.9.0
but lexically smaller). -/
def exFetchOk : String → Except String String := fun _ => .ok "1.10.0"

/-- A registry lookup that fails (HTTP 404). -/
def exFetchErr : String → Except String String :=
  fun name => .error ("crates.io API request for " ++ name ++ " failed with status: 404")

/-- Embeds `serde_json` on input that is not a JSON document (in particular the
empty string) always fails. -/
def exParseFail : String → Except String AuditReport :=
  fun _ => .error "EOF while parsing a value at line 1 column 0"

/-- Audit subprocess output: non-zero exit, both streams empty. -/
def exOutputEmpty : ProcessOutput :=
  { statusSuccess := false, stdout := "", stderr := "" }

/-- Audit subprocess output: non-zero exit, empty stdout, diagnostic stderr. -/
def exOutputStderr : ProcessOutput :=
  { statusSuccess := false, stdout := "",
    stderr := "error: advisory database fetch failed\nsecond line" }

/-- A manifest with a single runtime dependency declaring both a local path
and the wildcard version `"*"`. -/
def exWildcardPathManifest : CargoManifest :=
  { package := none,
    dependencies := some
      [("foo", Dependency.Detailed
        { version := some "*", path := some "../local", features := none })],
    dev_dependencies := none,
    build_dependencies := none }

/-- A manifest with one wildcard and one pinned runtime dependency. -/
def exMixedManifest : CargoManifest :=
  { package := none,
    dependencies := some
      [("foo", Dependency.Version "*"), ("bar", Dependency.Version "1.0")],
    dev_dependencies := none,
    build_dependencies := none }

/-- A read function exposing one library-context file with an unwrap on
line 1 and a pending-work comment on line 2. -/
def exScanRead : Path → Except String String :=
  fun fp =>
    if fp = ["p", "src", "util.rs"] then .ok "let x = y.unwrap();\n// TODO: fix"
    else .error "No such file or directory (os error 2)"

/-- A read function for the configuration counterexample: one source file
whose only notable line is a pending-work comment. -/
def cxRead : Path → Except String String :=
  fun fp =>
    if fp = ["p", "src", "a.rs"] then .ok "// TODO: x"
    else .error "No such file or directory (os error 2)"

/-- The counterexample project: one scanned source file containing a TODO
comment; manifest and metadata fail to parse, the audit subprocess exits
cleanly with empty output, no other file exists. -/
def cxProject : Project :=
  { root := ["p"],
    rust_files := [["p", "src", "a.rs"]],
    read := cxRead,
    manifest := .error "Failed to parse Cargo.toml",
    isFile := fun _ => false,
    isDir := fun _ => false,
    pathExists := fun _ => false,
    metadata := .error "cargo metadata failed",
    fetch := fun _ => .error "offline",
    audit := .ok { statusSuccess := true, stdout := "", stderr := "" },
    auditParse := exParseFail }

/-- A configuration that maps the check code CODE004 to `false`. -/
def cxConfig : Config := { checks := { enabled := [("CODE004", false)] } }

/-- A configuration that maps the check code DP001 to `false`. -/
def cxConfigDP : Config := { checks := { enabled := [("DP001", false)] } }

/-! ## Helper lemmas -/

theorem Finding.with_line_code (f : Finding) (n : Nat) : (f.with_line n).code = f.code := rfl

theorem Finding.with_line_message (f : Finding) (n : Nat) :
    (f.with_line n).message = f.message := rfl

theorem Finding.with_line_severity (f : Finding) (n : Nat) :
    (f.with_line n).severity = f.severity := rfl

theorem Finding.with_line_file_path (f : Finding) (n : Nat) :
    (f.with_line n).file_path = f.file_path := rfl

theorem Finding.with_line_line_number (f : Finding) (n : Nat) :
    (f.with_line n).line_number = some n := rfl

theorem Finding.new_line_number (c m : String) (s : Severity) (fp : Option String) :
    (Finding.new c m s fp).line_number = none := rfl

theorem mem_concatMap {g : α → List β} {l : List α} {b : β} :
    b ∈ concatMap g l ↔ ∃ a ∈ l, b ∈ g a := by
  induction l with
  | nil => simp [concatMap]
  | cons x xs ih => simp [concatMap, ih]

theorem concatMap_append (g : α → List β) (l₁ l₂ : List α) :
    concatMap g (l₁ ++ l₂) = concatMap g l₁ ++ concatMap g l₂ := by
  induction l₁ with
  | nil => rfl
  | cons x xs ih => simp [concatMap, ih]

theorem mem_if_singleton {c : Prop} [Decidable c] {x b : β}
    (h : b ∈ (if c then [x] else [])) : c ∧ b = x := by
  split at h
  · next hc => exact ⟨hc, by simpa using h⟩
  · simp at h

theorem mem_enumerateFrom {l : List α} {i : Nat} {p : Nat × α}
    (h : p ∈ enumerateFrom i l) : i ≤ p.1 := by
  induction l generalizing i with
  | nil => simp [enumerateFrom] at h
  | cons x xs ih =>
    simp only [enumerateFrom, List.mem_cons] at h
    rcases h with rfl | h
    · exact Nat.le_refl _
    · exact Nat.le_of_succ_le (ih h)

theorem line_findings_line {fp : Path} {lib : Bool} {n : Nat} {line : String} {f : Finding}
    (h : f ∈ line_findings fp lib n line) : f.line_number = some n := by
  simp only [line_findings, List.mem_append] at h
  rcases h with ((h | h) | h) | h
  · obtain ⟨-, rfl⟩ := mem_if_singleton h; rfl
  · obtain ⟨-, rfl⟩ := mem_if_singleton h; rfl
  · obtain ⟨-, rfl⟩ := mem_if_singleton h; rfl
  · rcases hcap : firstTodoCapture line with _ | t
    · rw [hcap] at h; simp at h
    · rw [hcap] at h; simp at h; subst h; rfl

theorem line_findings_code {fp : Path} {lib : Bool} {n : Nat} {line : String} {f : Finding}
    (h : f ∈ line_findings fp lib n line) :
    f.code = "CODE001" ∨ f.code = "CODE002" ∨ f.code = "CODE003" ∨ f.code = "CODE004" := by
  simp only [line_findings, List.mem_append] at h
  rcases h with ((h | h) | h) | h
  · obtain ⟨-, rfl⟩ := mem_if_singleton h; exact Or.inl rfl
  · obtain ⟨-, rfl⟩ := mem_if_singleton h; exact Or.inr (Or.inl rfl)
  · obtain ⟨-, rfl⟩ := mem_if_singleton h; exact Or.inr (Or.inr (Or.inl rfl))
  · rcases hcap : firstTodoCapture line with _ | t
    · rw [hcap] at h; simp at h
    · rw [hcap] at h; simp at h; subst h; exact Or.inr (Or.inr (Or.inr rfl))

theorem line_findings_app_context {fp : Path} {n : Nat} {line : String} {f : Finding}
    (h : f ∈ line_findings fp false n line) : f.code = "CODE004" := by
  simp only [line_findings, Bool.false_and, Bool.and_self_left, if_false,
    List.nil_append] at h
  rcases hcap : firstTodoCapture line with _ | t
  · rw [hcap] at h; simp at h
  · rw [hcap] at h; simp at h; subst h; rfl

theorem line_findings_filter_todo (fp : Path) (lib : Bool) (n : Nat) (line : String) :
    (line_findings fp lib n line).filter (fun f => f.code == "CODE004") =
      (match firstTodoCapture line with
       | some comment_type =>
         [(Finding.new "CODE004"
           ("Found \x27" ++ comment_type ++ "\x27 comment. Address or create an issue for it.")
           Severity.Note (some (pathToString fp))).with_line n]
       | none => []) := by
  simp only [line_findings, List.filter_append]
  rcases hcap : firstTodoCapture line with _ | t <;>
    · split <;> split <;> split <;> simp [Finding.new, Finding.with_line, List.filter]

theorem concatMap_enumerateFrom_line_mem
    {g : Nat × String → List Finding}
    (hg : ∀ p f, f ∈ g p → f.line_number = some p.1)
    {i : Nat} {l : List String} {f : Finding}
    (h : f ∈ concatMap g (enumerateFrom i l)) :
    ∃ m, i ≤ m ∧ f.line_number = some m := by
  rcases mem_concatMap.1 h with ⟨p, hp, hf⟩
  exact ⟨p.1, mem_enumerateFrom hp, hg p f hf⟩

theorem pairwise_concatMap_enumerateFrom
    {g : Nat × String → List Finding}
    (hg : ∀ p f, f ∈ g p → f.line_number = some p.1) :
    ∀ (i : Nat) (l : List String),
      List.Pairwise lineOrderedLE (concatMap g (enumerateFrom i l)) := by
  intro i l
  induction l generalizing i with
  | nil => exact List.Pairwise.nil
  | cons x xs ih =>
    show List.Pairwise lineOrderedLE (g (i, x) ++ concatMap g (enumerateFrom (i + 1) xs))
    rw [List.pairwise_append]
    refine ⟨?_, ih (i + 1), ?_⟩
    · refine List.pairwise_of_forall_mem_list (fun a ha b hb => ?_)
      intro la lb hla hlb
      have ha' := hg _ _ ha
      have hb' := hg _ _ hb
      rw [ha'] at hla
      rw [hb'] at hlb
      cases Option.some.inj hla
      cases Option.some.inj hlb
      exact Nat.le_refl _
    · intro a ha b hb la lb hla hlb
      have ha' := hg _ _ ha
      rw [ha'] at hla
      cases Option.some.inj hla
      rcases concatMap_enumerateFrom_line_mem hg hb with ⟨m, him, hm⟩
      rw [hm] at hlb
      cases Option.some.inj hlb
      exact Nat.le_of_succ_le him

theorem check_deps_eq_spec (deps : Option (List (String × Dependency))) (t : String) :
    check_deps deps t = wildcard_findings_spec deps t := by
  cases deps with
  | none => rfl
  | some ds =>
    induction ds with
    | nil => rfl
    | cons nd ds ih =>
      show (if depVersionStr nd.2 == some "*" then [dp001Finding t nd.1] else [])
          ++ check_deps (some ds) t = wildcard_findings_spec (some (nd :: ds)) t
      rw [ih]
      by_cases hp : (depVersionStr nd.2 == some "*") = true
      · simp [wildcard_findings_spec, List.filter_cons, hp]
      · simp only [Bool.not_eq_true] at hp
        simp [wildcard_findings_spec, List.filter_cons, hp]

/-! ## Claim theorems -/

/-- C10: for every Finding `f` and line `n`, `f.with_line n` has line number
`some n` and leaves code, message, severity and file path unchanged; and
`Finding::new` always constructs a finding whose line number is `None`. -/
theorem with_line_frame_and_new_no_line :
    (∀ (f : Finding) (n : Nat),
      (f.with_line n).line_number = some n ∧ (f.with_line n).code = f.code ∧
      (f.with_line n).message = f.message ∧ (f.with_line n).severity = f.severity ∧
      (f.with_line n).file_path = f.file_path) ∧
    (∀ (code message : String) (severity : Severity) (file_path : Option String),
      (Finding.new code message severity file_path).line_number = none) :=
  ⟨fun _ _ => ⟨rfl, rfl, rfl, rfl, rfl⟩, fun _ _ _ _ => rfl⟩

/-- C2: the terminal exit status is 1 exactly when the final finding
collection contains an Error or Warning finding, and 0 exactly when every
finding is a Note (in particular when there are none). -/
theorem exit_code_blocking_iff (findings : List Finding) :
    (exit_code findings = 1 ↔
      ∃ f ∈ findings, f.severity = Severity.Error ∨ f.severity = Severity.Warning) ∧
    (exit_code findings = 0 ↔ ∀ f ∈ findings, f.severity = Severity.Note) := by
  have hany : (findings.any
      (fun f => f.severity == Severity.Error || f.severity == Severity.Warning) = true)
      ↔ ∃ f ∈ findings, f.severity = Severity.Error ∨ f.severity = Severity.Warning := by
    simp [List.any_eq_true]
  have sev_note : ∀ s : Severity,
      (¬ (s = Severity.Error ∨ s = Severity.Warning)) ↔ s = Severity.Note := by
    intro s; cases s <;> simp
  unfold exit_code
  split
  · next h =>
    obtain ⟨f, hf, hor⟩ := hany.1 h
    refine ⟨⟨fun _ => ⟨f, hf, hor⟩, fun _ => rfl⟩,
      ⟨fun h10 => absurd h10 (by decide), fun hall => ?_⟩⟩
    have hn := hall f hf
    rw [hn] at hor
    rcases hor with hor | hor <;> cases hor
  · next h =>
    have hnex : ¬ ∃ f ∈ findings,
        f.severity = Severity.Error ∨ f.severity = Severity.Warning :=
      fun hex => h (hany.2 hex)
    refine ⟨⟨fun h01 => absurd h01 (by decide), fun hex => absurd hex hnex⟩,
      ⟨fun _ => ?_, fun _ => rfl⟩⟩
    intro f hf
    refine (sev_note f.severity).1 (fun hor => hnex ⟨f, hf, hor⟩)

/-- C4 counterexample: a manifest whose package section is absent makes
`check_missing_metadata` produce an Error-severity finding (MD005), contrary
to the claim that such a manifest never yields an Error by itself. -/
theorem missing_package_error_finding :
    ∃ f ∈ check_missing_metadata
        { package := none, dependencies := none, dev_dependencies := none,
          build_dependencies := none } Config.default,
      f.severity = Severity.Error :=
  ⟨Finding.new "MD005" "Missing section [package]" Severity.Error (some "Cargo.toml"),
    by simp [check_missing_metadata], rfl⟩

/-- C4 amended: a manifest without a package section yields exactly one
finding — MD005 at Error severity — and every other metadata check is
skipped, for every configuration and dependency maps. -/
theorem check_missing_metadata_no_package (config : Config)
    (d dd bd : Option (List (String × Dependency))) :
    check_missing_metadata
      { package := none, dependencies := d, dev_dependencies := dd,
        build_dependencies := bd } config =
      [Finding.new "MD005" "Missing section [package]" Severity.Error (some "Cargo.toml")] :=
  rfl

/-- C3 counterexample: a detailed runtime dependency carrying both a local
`path` and the wildcard version `"*"` still produces the DP001 wildcard
finding, contrary to the claim that path dependencies are exempt. -/
theorem wildcard_path_dependency_flagged :
    check_dependency_versions exWildcardPathManifest Config.default
      = [dp001Finding "runtime" "foo"] ∧
    (dp001Finding "runtime" "foo").code = "DP001" := ⟨rfl, rfl⟩

/-- C3 amended: with DP001 enabled, `check_dependency_versions` emits exactly
one DP001 Warning per dependency (in each of the three maps) whose resolved
version string is exactly `"*"` — whether or not the dependency also has a
`path` — with a message naming the dependency and its role. -/
theorem check_dependency_versions_wildcard_spec (m : CargoManifest) (config : Config)
    (h : config.is_check_enabled "DP001" = true) :
    check_dependency_versions m config =
      wildcard_findings_spec m.dependencies "runtime"
        ++ wildcard_findings_spec m.dev_dependencies "dev"
        ++ wildcard_findings_spec m.build_dependencies "build" := by
  unfold check_dependency_versions
  rw [h]
  simp [check_deps_eq_spec]

/-- Witness for the C3 amended theorem at a concrete mixed manifest. -/
theorem check_dependency_versions_wildcard_spec_witness :
    Config.default.is_check_enabled "DP001" = true ∧
    check_dependency_versions exMixedManifest Config.default =
      wildcard_findings_spec exMixedManifest.dependencies "runtime"
        ++ wildcard_findings_spec exMixedManifest.dev_dependencies "dev"
        ++ wildcard_findings_spec exMixedManifest.build_dependencies "build" :=
  ⟨rfl, check_dependency_versions_wildcard_spec exMixedManifest Config.default rfl⟩

/-- C9: for every file the pattern scanner reads successfully, the findings
it emits for that file are in ascending (non-decreasing) 1-indexed line
order. -/
theorem pattern_scanner_ascending_lines (fp project_root : Path)
    (read : Path → Except String String) (content : String)
    (h : read fp = Except.ok content) :
    List.Pairwise lineOrderedLE (process_file fp project_root read) := by
  unfold process_file
  rw [h]
  unfold scan_content
  exact pairwise_concatMap_enumerateFrom (fun p f hf => line_findings_line hf) 1 _

/-- Witness for C9 at a concrete two-line file. -/
theorem pattern_scanner_ascending_lines_witness :
    List.Pairwise lineOrderedLE
      (process_file ["p", "src", "util.rs"] ["p"] exScanRead) :=
  pattern_scanner_ascending_lines ["p", "src", "util.rs"] ["p"] exScanRead
    "let x = y.unwrap();\n// TODO: fix" rfl

/-- C6: for a registry-sourced direct dependency found in the resolve graph
whose registry lookup succeeds, when both version strings parse as semantic
versions a DP002 finding (naming both versions) is emitted exactly when the
resolved version is strictly below the latest under semantic-version
ordering; if either string fails to parse, no finding is emitted. -/
theorem outdated_dependency_semver_spec
    (dep : ResolvedDep) (fetch : String → Except String String)
    (cur_str latest_str : String)
    (hsrc : dep.source_is_crates_io = true)
    (hres : dep.resolved_version = some cur_str)
    (hfetch : fetch dep.name = Except.ok latest_str) :
    (∀ cur latest, semverParse cur_str = some cur → semverParse latest_str = some latest →
      process_dependency dep fetch =
        (if semverLt cur latest then [dp002Finding dep.name cur latest] else [])) ∧
    ((semverParse cur_str = none ∨ semverParse latest_str = none) →
      process_dependency dep fetch = []) := by
  constructor
  · intro cur latest hc hl
    simp [process_dependency, hsrc, hres, hfetch, hc, hl]
  · intro hn
    rcases hn with hn | hn
    · simp [process_dependency, hsrc, hres, hfetch, hn]
    · cases hc : semverParse cur_str <;>
        simp [process_dependency, hsrc, hres, hfetch, hn, hc]

/-- Witness for C6: resolved 1.9.0 against latest 1.10.0 is outdated under
semantic-version ordering (though `"1.10.0" < "1.9.0"` lexically). -/
theorem outdated_dependency_semver_spec_witness :
    process_dependency exDep exFetchOk =
      (if semverLt { major := 1, minor := 9, patch := 0, pre := [], build := [] }
          { major := 1, minor := 10, patch := 0, pre := [], build := [] } then
        [dp002Finding "serde"
          { major := 1, minor := 9, patch := 0, pre := [], build := [] }
          { major := 1, minor := 10, patch := 0, pre := [], build := [] }]
      else []) ∧
    semverLt { major := 1, minor := 9, patch := 0, pre := [], build := [] }
      { major := 1, minor := 10, patch := 0, pre := [], build := [] } = true :=
  ⟨(outdated_dependency_semver_spec exDep exFetchOk "1.9.0" "1.10.0" rfl rfl rfl).1
      { major := 1, minor := 9, patch := 0, pre := [], build := [] }
      { major := 1, minor := 10, patch := 0, pre := [], build := [] }
      (by decide) (by decide),
    by decide⟩

/-- C7: a failed registry lookup for a registry-sourced dependency degrades
to exactly one API001 Warning naming that dependency, yields no DP002
finding for it, and the remaining dependencies are processed unchanged. -/
theorem fetch_failure_degrades
    (dep : ResolvedDep) (fetch : String → Except String String)
    (cur_str e : String) (l1 l2 : List ResolvedDep)
    (hsrc : dep.source_is_crates_io = true)
    (hres : dep.resolved_version = some cur_str)
    (hfetch : fetch dep.name = Except.error e) :
    process_dependency dep fetch = [api001Finding dep.name e] ∧
    (api001Finding dep.name e).code = "API001" ∧
    (api001Finding dep.name e).severity = Severity.Warning ∧
    (api001Finding dep.name e).message =
      "Failed to fetch latest version for dependency \x27" ++ dep.name ++ "\x27: " ++ e ∧
    (∀ f ∈ process_dependency dep fetch, f.code ≠ "DP002") ∧
    check_outdated_dependencies (l1 ++ dep :: l2) fetch =
      check_outdated_dependencies l1 fetch ++ [api001Finding dep.name e]
        ++ check_outdated_dependencies l2 fetch := by
  have hp : process_dependency dep fetch = [api001Finding dep.name e] := by
    simp [process_dependency, hsrc, hres, hfetch]
  refine ⟨hp, rfl, rfl, rfl, ?_, ?_⟩
  · intro f hf
    rw [hp] at hf
    simp at hf
    subst hf
    show ("API001" : String) ≠ "DP002"
    decide
  · show concatMap (fun d => process_dependency d fetch) (l1 ++ dep :: l2) = _
    rw [concatMap_append]
    show _ ++ (process_dependency dep fetch ++ _) = _
    rw [hp]
    simp [check_outdated_dependencies]

/-- Witness for C7 at a concrete 404 lookup. -/
theorem fetch_failure_degrades_witness :
    process_dependency exDep exFetchErr =
      [api001Finding "serde" "crates.io API request for serde failed with status: 404"] :=
  (fetch_failure_degrades exDep exFetchErr "1.9.0"
      "crates.io API request for serde failed with status: 404" [] [] rfl rfl rfl).1

/-- C8 counterexample: the audit subprocess exits non-zero with unparseable
output, but both stdout and stderr are empty — `check_vulnerability` then
emits no finding at all, not the one Warning the claim demands. -/
theorem audit_empty_streams_no_finding :
    (∃ e, exParseFail "" = Except.error e) ∧
    exOutputEmpty.statusSuccess = false ∧
    check_vulnerability_output ["p"] exOutputEmpty exParseFail = [] :=
  ⟨⟨"EOF while parsing a value at line 1 column 0", rfl⟩, rfl, rfl⟩

/-- C8 amended: with a non-zero exit and unparseable stdout the adapter
emits exactly one Warning carrying a diagnostic excerpt — AUD001 with the
first stderr line when stdout is empty and stderr is not, AUD003 with the
parse error when stdout is non-empty — except that with both streams empty
it emits no finding. -/
theorem check_vulnerability_unparseable_spec
    (project_path : Path) (output : ProcessOutput)
    (parse : String → Except String AuditReport) (e : String)
    (hfail : output.statusSuccess = false)
    (hparse : parse output.stdout = Except.error e) :
    (output.stdout.isEmpty = true → output.stderr.isEmpty = false →
      check_vulnerability_output project_path output parse =
        [Finding.new "AUD001"
          ("cargo-audit execution failed: "
            ++ ((rustLines output.stderr).head?.getD "Unknown error"))
          Severity.Warning (some (pathToString (project_path ++ ["Cargo.lock"])))]) ∧
    (output.stdout.isEmpty = false →
      check_vulnerability_output project_path output parse =
        [Finding.new "AUD003" ("Failed to parse cargo-audit JSON output: " ++ e)
          Severity.Warning (some (pathToString (project_path ++ ["Cargo.lock"])))]) ∧
    (output.stdout.isEmpty = true → output.stderr.isEmpty = true →
      check_vulnerability_output project_path output parse = []) := by
  refine ⟨fun h1 h2 => ?_, fun h1 => ?_, fun h1 h2 => ?_⟩
  · simp [check_vulnerability_output, hfail, h1, h2]
  · simp [check_vulnerability_output, hfail, hparse, h1]
  · simp [check_vulnerability_output, hfail, hparse, h1, h2]

/-- Witness for the C8 amended theorem: empty stdout with a two-line stderr
yields the single AUD001 Warning holding the first stderr line. -/
theorem check_vulnerability_unparseable_spec_witness :
    check_vulnerability_output ["p"] exOutputStderr exParseFail =
      [Finding.new "AUD001"
        ("cargo-audit execution failed: "
          ++ ((rustLines exOutputStderr.stderr).head?.getD "Unknown error"))
        Severity.Warning (some (pathToString (["p"] ++ ["Cargo.lock"])))] :=
  (check_vulnerability_unparseable_spec ["p"] exOutputStderr exParseFail
      "EOF while parsing a value at line 1 column 0" rfl rfl).1 rfl (by decide)

theorem filter_concatMap (p : β → Bool) (g : α → List β) (l : List α) :
    (concatMap g l).filter p = concatMap (fun a => (g a).filter p) l := by
  induction l with
  | nil => rfl
  | cons x xs ih => simp [concatMap, List.filter_append, ih]

/-- C5 counterexample: `src/sub/main.rs` is not the designated entry point
`src/main.rs`, is not under `src/bin`, and is not the build script, yet the
code classifies it as application context (its final component is
`main.rs`), so an unwrap inside it produces no finding. -/
theorem nested_main_rs_exempt :
    is_library_file ["p", "src", "sub", "main.rs"] ["p"] = false ∧
    ["p", "src", "sub", "main.rs"] ≠ ["p"] ++ ["src", "main.rs"] ∧
    (["p"] ++ ["src", "bin"]).isPrefixOf ["p", "src", "sub", "main.rs"] = false ∧
    ["p", "src", "sub", "main.rs"] ≠ ["p"] ++ ["build.rs"] ∧
    ["p", "src", "sub", "main.rs"] ≠ ["p"] ++ ["src", "lib.rs"] ∧
    (["p"] ++ ["src"]).isPrefixOf ["p", "src", "sub", "main.rs"] = true ∧
    scan_content ["p", "src", "sub", "main.rs"] ["p"] "let x = y.unwrap();" = [] := by
  decide

/-- C5 amended: library context holds exactly for files under `src` that are
not `src/lib.rs`, whose final component is not `main.rs` (any `main.rs`, not
only the entry point), none of whose path components is `bin` (anywhere in
the full path), and that are not the build script.  In application context
only CODE004 findings are emitted, and the CODE004 findings of a file never
depend on the classification. -/
theorem library_context_classification_spec (file_path project_root : Path) :
    (is_library_file file_path project_root = true ↔
      ((project_root ++ ["src"]).isPrefixOf file_path = true ∧
       file_path ≠ project_root ++ ["src", "lib.rs"] ∧
       file_path.getLast? ≠ some "main.rs" ∧
       (∀ c ∈ file_path, c ≠ "bin") ∧
       file_path ≠ project_root ++ ["build.rs"])) ∧
    (is_library_file file_path project_root = false →
      ∀ content, ∀ f ∈ scan_content file_path project_root content,
        f.code = "CODE004") ∧
    (∀ content,
      (scan_content file_path project_root content).filter (fun f => f.code == "CODE004")
        = todo_findings file_path content) := by
  refine ⟨?_, ?_, ?_⟩
  · unfold is_library_file pathEndsWith
    simp only [Bool.and_eq_true, bne_iff_ne, Bool.not_eq_true', beq_eq_false_iff_ne,
      List.all_eq_true, ne_eq, decide_eq_true_eq]
    constructor
    · rintro ⟨⟨⟨⟨h1, h2⟩, h3⟩, h4⟩, h5⟩
      exact ⟨h1, h2, h3, fun c hc => h4 c hc, h5⟩
    · rintro ⟨h1, h2, h3, h4, h5⟩
      exact ⟨⟨⟨⟨h1, h2⟩, h3⟩, fun c hc => h4 c hc⟩, h5⟩
  · intro hlib content f hf
    simp only [scan_content] at hf
    rw [hlib] at hf
    rcases mem_concatMap.1 hf with ⟨p, _, hf⟩
    exact line_findings_app_context hf
  · intro content
    simp only [scan_content, todo_findings]
    rw [filter_concatMap]
    have hfun :
        (fun (p : Nat × String) =>
          (line_findings file_path (is_library_file file_path project_root) p.1 p.2).filter
            (fun f => f.code == "CODE004"))
        = (fun (p : Nat × String) =>
            match firstTodoCapture p.2 with
            | some comment_type =>
              [(Finding.new "CODE004"
                ("Found \x27" ++ comment_type ++ "\x27 comment. Address or create an issue for it.")
                Severity.Note (some (pathToString file_path))).with_line p.1]
            | none => []) :=
      funext fun p =>
        line_findings_filter_todo file_path (is_library_file file_path project_root) p.1 p.2
    rw [hfun]

/-- Witness for the C5 amended theorem: in the application-context file
`src/main.rs` only the pending-work rule fires. -/
theorem library_context_classification_spec_witness :
    (scan_content ["p", "src", "main.rs"] ["p"] "let x = y.unwrap();\n// TODO: fix").all
      (fun f => f.code == "CODE004") = true :=
  List.all_eq_true.2 (fun f hf => by
    have h := (library_context_classification_spec ["p", "src", "main.rs"] ["p"]).2.1
      (by decide) "let x = y.unwrap();\n// TODO: fix" f hf
    simpa using h)

theorem process_file_code {fp root : Path} {read : Path → Except String String} {f : Finding}
    (h : f ∈ process_file fp root read) :
    f.code = "IO001" ∨ f.code = "CODE001" ∨ f.code = "CODE002" ∨
      f.code = "CODE003" ∨ f.code = "CODE004" := by
  unfold process_file at h
  cases hr : read fp with
  | error e =>
    rw [hr] at h
    simp at h
    subst h
    exact Or.inl rfl
  | ok content =>
    rw [hr] at h
    simp only [scan_content] at h
    rcases mem_concatMap.1 h with ⟨p, _, hf⟩
    rcases line_findings_code hf with h | h | h | h
    · exact Or.inr (Or.inl h)
    · exact Or.inr (Or.inr (Or.inl h))
    · exact Or.inr (Or.inr (Or.inr (Or.inl h)))
    · exact Or.inr (Or.inr (Or.inr (Or.inr h)))

theorem check_code_patterns_code {files : List Path} {root : Path}
    {read : Path → Except String String} {f : Finding}
    (h : f ∈ check_code_patterns files root read) :
    f.code = "IO001" ∨ f.code = "CODE001" ∨ f.code = "CODE002" ∨
      f.code = "CODE003" ∨ f.code = "CODE004" := by
  rcases mem_concatMap.1 h with ⟨fp, _, hf⟩
  exact process_file_code hf

theorem check_project_structure_code {root : Path} {md : Option CargoManifest}
    {isFile isDir pathExists : Path → Bool} {f : Finding}
    (h : f ∈ check_project_structure root md isFile isDir pathExists) :
    f.code = "STRUCT001" ∨ f.code = "STRUCT002" ∨ f.code = "STRUCT003" := by
  simp only [check_project_structure] at h
  split at h
  · simp at h
  · simp only [List.mem_append] at h
    rcases h with (h | h) | h
    · obtain ⟨-, rfl⟩ := mem_if_singleton h
      exact Or.inl rfl
    · split at h
      · split at h
        · simp at h
          subst h
          exact Or.inr (Or.inl rfl)
        · simp at h
      · simp at h
    · split at h
      · split at h
        · simp at h
          subst h
          exact Or.inr (Or.inr rfl)
        · simp at h
      · simp at h

theorem check_rust_edition_code {m : CargoManifest} {f : Finding}
    (h : f ∈ check_rust_edition m) :
    f.code = "ED001" ∨ f.code = "ED002" := by
  unfold check_rust_edition at h
  split at h
  · split at h
    · split at h
      · simp at h
        subst h
        exact Or.inl rfl
      · simp at h
    · simp at h
      subst h
      exact Or.inr rfl
  · simp at h

theorem check_missing_metadata_code {m : CargoManifest} {cfg : Config} {f : Finding}
    (h : f ∈ check_missing_metadata m cfg) :
    f.code = "MD005" ∨
      ((f.code = "MD001" ∨ f.code = "MD002" ∨ f.code = "MD003" ∨ f.code = "MD004") ∧
        cfg.is_check_enabled f.code = true) := by
  unfold check_missing_metadata at h
  split at h
  · simp only [List.mem_append] at h
    rcases h with ((h | h) | h) | h
    · obtain ⟨hc, rfl⟩ := mem_if_singleton h
      exact Or.inr ⟨Or.inl rfl, by rw [Bool.and_eq_true] at hc; exact hc.1⟩
    · obtain ⟨hc, rfl⟩ := mem_if_singleton h
      exact Or.inr ⟨Or.inr (Or.inl rfl), by rw [Bool.and_eq_true] at hc; exact hc.1⟩
    · obtain ⟨hc, rfl⟩ := mem_if_singleton h
      exact Or.inr ⟨Or.inr (Or.inr (Or.inl rfl)), by rw [Bool.and_eq_true] at hc; exact hc.1⟩
    · split at h
      · next hc =>
        split at h
        · simp at h
          subst h
          exact Or.inr ⟨Or.inr (Or.inr (Or.inr rfl)), hc⟩
        · split at h
          · simp at h
          · simp at h
            subst h
            exact Or.inr ⟨Or.inr (Or.inr (Or.inr rfl)), hc⟩
      · simp at h
  · simp at h
    subst h
    exact Or.inl rfl

theorem check_deps_code {deps : Option (List (String × Dependency))} {t : String} {f : Finding}
    (h : f ∈ check_deps deps t) : f.code = "DP001" := by
  rw [check_deps_eq_spec] at h
  cases deps with
  | none => simp [wildcard_findings_spec] at h
  | some ds =>
    simp only [wildcard_findings_spec, List.mem_map] at h
    rcases h with ⟨nd, -, rfl⟩
    rfl

theorem check_dependency_versions_code {m : CargoManifest} {cfg : Config} {f : Finding}
    (h : f ∈ check_dependency_versions m cfg) :
    f.code = "DP001" ∧ cfg.is_check_enabled "DP001" = true := by
  unfold check_dependency_versions at h
  split at h
  · next hc =>
    simp only [List.mem_append] at h
    exact ⟨by rcases h with (h | h) | h <;> exact check_deps_code h, hc⟩
  · simp at h

theorem process_dependency_code {dep : ResolvedDep}
    {fetch : String → Except String String} {f : Finding}
    (h : f ∈ process_dependency dep fetch) :
    f.code = "DP002" ∨ f.code = "API001" := by
  unfold process_dependency at h
  split at h
  · simp at h
  · split at h
    · simp at h
    · split at h
      · split at h
        · split at h
          · simp at h
            subst h
            exact Or.inl rfl
          · simp at h
        · simp at h
      · simp at h
        subst h
        exact Or.inr rfl

theorem check_outdated_dependencies_code {deps : List ResolvedDep}
    {fetch : String → Except String String} {f : Finding}
    (h : f ∈ check_outdated_dependencies deps fetch) :
    f.code = "DP002" ∨ f.code = "API001" := by
  rcases mem_concatMap.1 h with ⟨d, _, hf⟩
  exact process_dependency_code hf

theorem check_vulnerability_code {root : Path}
    {output_result : Except String ProcessOutput}
    {parse : String → Except String AuditReport} {f : Finding}
    (h : f ∈ check_vulnerability root output_result parse) :
    f.code = "AUD001" ∨ f.code = "AUD002" ∨ f.code = "AUD003" ∨
      f.code = "AUD004" ∨ f.code = "SEC001" := by
  unfold check_vulnerability at h
  split at h
  · next output =>
    unfold check_vulnerability_output at h
    split at h
    · simp at h
      subst h
      exact Or.inl rfl
    · split at h
      · split at h
        · simp only [List.mem_map] at h
          rcases h with ⟨v, -, rfl⟩
          exact Or.inr (Or.inr (Or.inr (Or.inr rfl)))
        · split at h
          · simp at h
            subst h
            exact Or.inr (Or.inl rfl)
          · simp at h
      · split at h
        · simp at h
          subst h
          exact Or.inr (Or.inr (Or.inl rfl))
        · simp at h
  · simp at h
    subst h
    exact Or.inr (Or.inr (Or.inr (Or.inl rfl)))

theorem check_missing_denied_lints_code {root : Path} {cfg : Config}
    {pathExists : Path → Bool} {read : Path → Except String String} {f : Finding}
    (h : f ∈ check_missing_denied_lints root cfg pathExists read) :
    f.code = "LINT001" ∧ cfg.is_check_enabled "LINT001" = true := by
  unfold check_missing_denied_lints at h
  rcases mem_concatMap.1 h with ⟨fp, -, hf⟩
  split at hf
  · simp at hf
  · next hen =>
    simp only [Bool.not_eq_true', Bool.not_eq_false] at hen
    split at hf
    · simp at hf
    · rcases mem_concatMap.1 hf with ⟨r, -, hr⟩
      split at hr
      · simp at hr
        subst hr
        exact ⟨rfl, hen⟩
      · simp at hr

theorem analyze_codes (p : Project) (config : Config) :
    ∀ f ∈ analyze_project_for_test p config,
      f.code ∈ (["IO001", "CODE001", "CODE002", "CODE003", "CODE004",
                  "STRUCT001", "STRUCT002", "STRUCT003", "MD005", "ED001", "ED002",
                  "DP002", "API001", "AUD001", "AUD002", "AUD003", "AUD004",
                  "SEC001"] : List String) ∨
      (f.code ∈ (["MD001", "MD002", "MD003", "MD004", "DP001", "LINT001"] : List String) ∧
        config.is_check_enabled f.code = true) := by
  intro f hf
  simp only [analyze_project_for_test, List.mem_append] at hf
  rcases hf with (((hf | hf) | hf) | (hf | hf)) | hf
  · rcases check_code_patterns_code hf with h | h | h | h | h <;> rw [h] <;>
      exact Or.inl (by decide)
  · split at hf
    · rcases check_project_structure_code hf with h | h | h <;> rw [h] <;>
        exact Or.inl (by decide)
    · simp at hf
  · split at hf
    · simp only [List.mem_append] at hf
      rcases hf with (hf | hf) | hf
      · rcases check_missing_metadata_code hf with h | ⟨h, hen⟩
        · rw [h]; exact Or.inl (by decide)
        · refine Or.inr ⟨?_, hen⟩
          rcases h with h | h | h | h <;> rw [h] <;> decide
      · obtain ⟨h, hen⟩ := check_dependency_versions_code hf
        rw [h]
        exact Or.inr ⟨by decide, hen⟩
      · rcases check_rust_edition_code hf with h | h <;> rw [h] <;>
          exact Or.inl (by decide)
    · simp at hf
  · split at hf
    · rcases check_outdated_dependencies_code hf with h | h <;> rw [h] <;>
        exact Or.inl (by decide)
    · simp at hf
  · rcases check_vulnerability_code hf with h | h | h | h | h <;> rw [h] <;>
      exact Or.inl (by decide)
  · obtain ⟨h, hen⟩ := check_missing_denied_lints_code hf
    rw [h]
    exact Or.inr ⟨by decide, hen⟩

/-- C1 counterexample: with CODE004 explicitly mapped to false in the
configuration, the final collection returned by the analysis still contains
a CODE004 finding — pattern-scanner findings are not configuration-gated and
no final filtering step exists. -/
theorem disabled_check_code_still_reported :
    cxConfig.is_check_enabled "CODE004" = false ∧
    ∃ f ∈ analyze_project_for_test cxProject cxConfig, f.code = "CODE004" := by
  decide

theorem gated_codes_filtered (p : Project) (config : Config) (c : String)
    (hc : c ∈ (["MD001", "MD002", "MD003", "MD004", "DP001", "LINT001"] : List String))
    (hdis : config.is_check_enabled c = false) :
    ∀ f ∈ analyze_project_for_test p config, f.code ≠ c := by
  intro f hf heq
  rcases analyze_codes p config f hf with hin | ⟨hin, hen⟩
  · rw [heq] at hin
    simp only [List.mem_cons, List.not_mem_nil, or_false] at hc
    rcases hc with rfl | rfl | rfl | rfl | rfl | rfl <;> simp at hin
  · rw [heq] at hen
    rw [hen] at hdis
    cases hdis

theorem filter_block_congr {p : Finding → Bool} {l : List Finding}
    {c₁ c₂ : Prop} [Decidable c₁] [Decidable c₂]
    (h : (∀ f ∈ l, p f = false) ∨ (c₁ ↔ c₂)) :
    (if c₁ then l else []).filter p = (if c₂ then l else []).filter p := by
  rcases h with h | h
  · have hnil : l.filter p = [] :=
      List.filter_eq_nil_iff.2 (fun f hf => by simp [h f hf])
    split <;> split <;> simp [hnil]
  · rw [if_congr h rfl rfl]

theorem check_missing_metadata_filter_congr (m : CargoManifest)
    (config₁ config₂ : Config) (p : Finding → Bool)
    (h1 : (∀ f : Finding, f.code = "MD001" → p f = false) ∨
      config₁.is_check_enabled "MD001" = config₂.is_check_enabled "MD001")
    (h2 : (∀ f : Finding, f.code = "MD002" → p f = false) ∨
      config₁.is_check_enabled "MD002" = config₂.is_check_enabled "MD002")
    (h3 : (∀ f : Finding, f.code = "MD003" → p f = false) ∨
      config₁.is_check_enabled "MD003" = config₂.is_check_enabled "MD003")
    (h4 : (∀ f : Finding, f.code = "MD004" → p f = false) ∨
      config₁.is_check_enabled "MD004" = config₂.is_check_enabled "MD004") :
    (check_missing_metadata m config₁).filter p =
      (check_missing_metadata m config₂).filter p := by
  unfold check_missing_metadata
  cases hp : m.package with
  | none => rfl
  | some package =>
    simp only [List.filter_append]
    congr 1
    · congr 1
      · congr 1
        · apply filter_block_congr
          rcases h1 with h | h
          · refine Or.inl fun f hf => h f ?_
            simp at hf
            subst hf
            rfl
          · exact Or.inr (by rw [h])
        · apply filter_block_congr
          rcases h2 with h | h
          · refine Or.inl fun f hf => h f ?_
            simp at hf
            subst hf
            rfl
          · exact Or.inr (by rw [h])
      · apply filter_block_congr
        rcases h3 with h | h
        · refine Or.inl fun f hf => h f ?_
          simp at hf
          subst hf
          rfl
        · exact Or.inr (by rw [h])
    · apply filter_block_congr
      rcases h4 with h | h
      · refine Or.inl fun f hf => h f ?_
        split at hf
        · simp at hf
          subst hf
          rfl
        · split at hf
          · simp at hf
          · simp at hf
            subst hf
            rfl
      · exact Or.inr (by rw [h])

theorem check_dependency_versions_filter_congr (m : CargoManifest)
    (config₁ config₂ : Config) (p : Finding → Bool)
    (h : (∀ f : Finding, f.code = "DP001" → p f = false) ∨
      config₁.is_check_enabled "DP001" = config₂.is_check_enabled "DP001") :
    (check_dependency_versions m config₁).filter p =
      (check_dependency_versions m config₂).filter p := by
  unfold check_dependency_versions
  apply filter_block_congr
  rcases h with h | h
  · refine Or.inl fun f hf => h f ?_
    simp only [List.mem_append] at hf
    rcases hf with (hf | hf) | hf <;> exact check_deps_code hf
  · exact Or.inr (by rw [h])

theorem check_missing_denied_lints_congr (root : Path) (pe : Path → Bool)
    (read : Path → Except String String) {config₁ config₂ : Config}
    (h : config₁.is_check_enabled "LINT001" = config₂.is_check_enabled "LINT001") :
    check_missing_denied_lints root config₁ pe read =
      check_missing_denied_lints root config₂ pe read := by
  unfold check_missing_denied_lints
  simp only [h]

theorem check_missing_denied_lints_filter_congr (root : Path) (pe : Path → Bool)
    (read : Path → Except String String) (config₁ config₂ : Config) (p : Finding → Bool)
    (h : (∀ f : Finding, f.code = "LINT001" → p f = false) ∨
      config₁.is_check_enabled "LINT001" = config₂.is_check_enabled "LINT001") :
    (check_missing_denied_lints root config₁ pe read).filter p =
      (check_missing_denied_lints root config₂ pe read).filter p := by
  rcases h with h | h
  · have e1 : (check_missing_denied_lints root config₁ pe read).filter p = [] :=
      List.filter_eq_nil_iff.2
        (fun f hf => by simp [h f (check_missing_denied_lints_code hf).1])
    have e2 : (check_missing_denied_lints root config₂ pe read).filter p = [] :=
      List.filter_eq_nil_iff.2
        (fun f hf => by simp [h f (check_missing_denied_lints_code hf).1])
    rw [e1, e2]
  · rw [check_missing_denied_lints_congr root pe read h]

theorem analyze_filter_congr (proj : Project) {config₁ config₂ : Config}
    {p : Finding → Bool}
    (h1 : (∀ f : Finding, f.code = "MD001" → p f = false) ∨
      config₁.is_check_enabled "MD001" = config₂.is_check_enabled "MD001")
    (h2 : (∀ f : Finding, f.code = "MD002" → p f = false) ∨
      config₁.is_check_enabled "MD002" = config₂.is_check_enabled "MD002")
    (h3 : (∀ f : Finding, f.code = "MD003" → p f = false) ∨
      config₁.is_check_enabled "MD003" = config₂.is_check_enabled "MD003")
    (h4 : (∀ f : Finding, f.code = "MD004" → p f = false) ∨
      config₁.is_check_enabled "MD004" = config₂.is_check_enabled "MD004")
    (hdp : (∀ f : Finding, f.code = "DP001" → p f = false) ∨
      config₁.is_check_enabled "DP001" = config₂.is_check_enabled "DP001")
    (hlint : (∀ f : Finding, f.code = "LINT001" → p f = false) ∨
      config₁.is_check_enabled "LINT001" = config₂.is_check_enabled "LINT001") :
    (analyze_project_for_test proj config₁).filter p =
      (analyze_project_for_test proj config₂).filter p := by
  unfold analyze_project_for_test
  simp only [List.filter_append]
  congr 1
  · congr 1
    · congr 1
      cases hm : proj.manifest with
      | error e => rfl
      | ok md =>
        simp only [List.filter_append]
        congr 1
        congr 1
        · exact check_missing_metadata_filter_congr md config₁ config₂ p h1 h2 h3 h4
        · exact check_dependency_versions_filter_congr md config₁ config₂ p hdp
  · exact check_missing_denied_lints_filter_congr proj.root proj.pathExists proj.read
      config₁ config₂ p hlint

/-- C1 amended: only the codes MD001–MD004, DP001 and LINT001 consult the
configuration.  For each such code: (1) mapping it to false removes every
finding with that code from the final collection; (2) doing so changes no
other finding — two runs whose configurations agree on every other code
produce identical collections once findings with that code are removed;
and (3) the findings whose codes are not configuration-gated (CODE001–
CODE004, DP002, SEC001, STRUCT001–STRUCT003, IO001, MD005, ED001/ED002,
API001, AUD001–AUD004) are identical across all configurations. -/
theorem config_gating_frame (p : Project) (c : String)
    (hc : c ∈ (["MD001", "MD002", "MD003", "MD004", "DP001", "LINT001"] : List String)) :
    (∀ config : Config, config.is_check_enabled c = false →
      ∀ f ∈ analyze_project_for_test p config, f.code ≠ c) ∧
    (∀ config₁ config₂ : Config,
      (∀ d, d ≠ c → config₁.is_check_enabled d = config₂.is_check_enabled d) →
      (analyze_project_for_test p config₁).filter (fun f => !(f.code == c)) =
        (analyze_project_for_test p config₂).filter (fun f => !(f.code == c))) ∧
    (∀ config₁ config₂ : Config,
      (analyze_project_for_test p config₁).filter
          (fun f =>
            !((["MD001", "MD002", "MD003", "MD004", "DP001", "LINT001"] :
              List String).contains f.code)) =
        (analyze_project_for_test p config₂).filter
          (fun f =>
            !((["MD001", "MD002", "MD003", "MD004", "DP001", "LINT001"] :
              List String).contains f.code))) := by
  refine ⟨fun config hdis => gated_codes_filtered p config c hc hdis, ?_, ?_⟩
  · intro config₁ config₂ hagree
    have mk : ∀ d : String,
        (∀ f : Finding, f.code = d → (!(f.code == c)) = false) ∨
          config₁.is_check_enabled d = config₂.is_check_enabled d := by
      intro d
      by_cases hdc : d = c
      · subst hdc
        exact Or.inl fun f hf => by simp [hf]
      · exact Or.inr (hagree d hdc)
    exact analyze_filter_congr p (mk "MD001") (mk "MD002") (mk "MD003") (mk "MD004")
      (mk "DP001") (mk "LINT001")
  · intro config₁ config₂
    have mk : ∀ d : String,
        d ∈ (["MD001", "MD002", "MD003", "MD004", "DP001", "LINT001"] : List String) →
        ∀ f : Finding, f.code = d →
          (!((["MD001", "MD002", "MD003", "MD004", "DP001", "LINT001"] :
            List String).contains f.code)) = false := by
      intro d hd f hf
      rw [hf]
      simp only [Bool.not_eq_false']
      exact List.elem_iff.2 hd
    exact analyze_filter_congr p
      (Or.inl (mk "MD001" (by decide))) (Or.inl (mk "MD002" (by decide)))
      (Or.inl (mk "MD003" (by decide))) (Or.inl (mk "MD004" (by decide)))
      (Or.inl (mk "DP001" (by decide))) (Or.inl (mk "LINT001" (by decide)))

/-- Witness for the C1 amended theorem at concrete configurations: with
DP001 disabled no DP001 finding remains, the non-DP001 findings agree
between the default configuration and the DP001-disabling one, and the
non-gated findings agree between two unrelated configurations. -/
theorem config_gating_frame_witness :
    ((analyze_project_for_test cxProject cxConfigDP).all
      (fun f => !(f.code == "DP001")) = true) ∧
    ((analyze_project_for_test cxProject Config.default).filter
        (fun f => !(f.code == "DP001")) =
      (analyze_project_for_test cxProject cxConfigDP).filter
        (fun f => !(f.code == "DP001"))) ∧
    ((analyze_project_for_test cxProject cxConfig).filter
        (fun f =>
          !((["MD001", "MD002", "MD003", "MD004", "DP001", "LINT001"] :
            List String).contains f.code)) =
      (analyze_project_for_test cxProject cxConfigDP).filter
        (fun f =>
          !((["MD001", "MD002", "MD003", "MD004", "DP001", "LINT001"] :
            List String).contains f.code))) := by
  have h := config_gating_frame cxProject "DP001" (by decide)
  refine ⟨?_, ?_, ?_⟩
  · exact List.all_eq_true.2 (fun f hf => by simpa using h.1 cxConfigDP rfl f hf)
  · refine h.2.1 Config.default cxConfigDP ?_
    intro d hd
    have hbeq : (d == "DP001") = false := by simp [hd]
    simp [Config.is_check_enabled, Config.default, cxConfigDP, List.lookup, hbeq]
  · exact h.2.2 cxConfig cxConfigDP

end CargoDokita
